import Mathlib

/-!
Verification development for the HealthBuddy medical-chatbot pipeline.

The JavaScript sources are shallowly embedded: strings become `List Char`,
JS numbers become `ℚ` (all arithmetic in the modelled code paths is exact),
objects become structures, and the external collaborators (Mongo store,
LLM endpoint) become explicit parameters.  Each definition mirrors one
function of the repository; the source file and function are named in its
doc comment.
-/

namespace HealthBuddy

/-- Strings are modelled as lists of characters. -/
abbrev Chars := List Char

/-- Shorthand turning a Lean string literal into its character list. -/
def S (s : String) : Chars := s.data

/-- The apostrophe character (written via its code point so that source
literals containing it can be assembled by concatenation). -/
def apos : Char := Char.ofNat 39

/-- JS `String.prototype.toLowerCase()` restricted to the ASCII data the
repository manipulates. -/
def toLowerStr (s : Chars) : Chars := s.map Char.toLower

/-- JS `text.includes(sub)`: substring test, `true` on an empty needle. -/
def jsIncludes : Chars → Chars → Bool
  | [], sub => sub.isEmpty
  | c :: t, sub => sub.isPrefixOf (c :: t) || jsIncludes t sub

/-- JS `String.prototype.trim()` (ASCII whitespace suffices for the data
handled by the repository). -/
def trimChars (s : Chars) : Chars :=
  ((s.dropWhile Char.isWhitespace).reverse.dropWhile Char.isWhitespace).reverse

/-- JS `.replace(/[:\(\)]/g, "")` from `normalizeMarkerName`. -/
def stripPunct (s : Chars) : Chars :=
  s.filter (fun c => !(c == ':' || c == '(' || c == ')'))

/-- JS `.replace(/\s+/g, " ")` from `normalizeMarkerName`: every maximal
run of whitespace becomes a single space. -/
def collapseWs : Chars → Chars
  | [] => []
  | [c] => [if c.isWhitespace then ' ' else c]
  | c :: d :: t =>
    if c.isWhitespace && d.isWhitespace then collapseWs (d :: t)
    else (if c.isWhitespace then ' ' else c) :: collapseWs (d :: t)

/-- `normalizeMarkerName` of `backend/utils/referenceRanges.js`
(healthAnalysis.js, lines 387-390): lowercase, trim, strip `:()`,
collapse whitespace.  A JS `null`/missing name is the empty list here,
matching the `if (!markerName) return ""` guard. -/
def normalizeMarkerName (markerName : Chars) : Chars :=
  collapseWs (stripPunct (trimChars (toLowerStr markerName)))

/-- A resolved reference range `{ min, max, unit }`. -/
structure Range where
  min : ℚ
  max : ℚ
  unit : Chars
deriving DecidableEq

/-- One entry of `REFERENCE_RANGES`: either flat, or partitioned into
male/female sub-ranges. -/
inductive Entry where
  | flat (r : Range)
  | mf (male female : Range)
deriving DecidableEq

/-- Exact rational constant (decimal literals of the source are written
as exact fractions, e.g. `4.5` as `q 45 10`, because Lean scientific
literals do not reduce for kernel-side evaluation). -/
def q (n : Int) (d : Nat) : ℚ := mkRat n d

/-- `REFERENCE_RANGES`, part 1: complete blood count, RBC indices, WBC
count and differential (source order preserved). -/
def REFERENCE_RANGES_1 : List (Chars × Entry) := [
  (S "hemoglobin", .mf ⟨13, 17, S "gm/dl"⟩ ⟨12, 15, S "gm/dl"⟩),
  (S "r.b.c. count", .mf ⟨q 45 10, q 55 10, S "million/cumm"⟩ ⟨q 38 10, q 48 10, S "million/cumm"⟩),
  (S "rbc count", .mf ⟨q 45 10, q 55 10, S "million/cumm"⟩ ⟨q 38 10, q 48 10, S "million/cumm"⟩),
  (S "p.c.v.", .mf ⟨40, 50, S "%"⟩ ⟨36, 46, S "%"⟩),
  (S "pcv", .mf ⟨40, 50, S "%"⟩ ⟨36, 46, S "%"⟩),
  (S "packed cell volume", .mf ⟨40, 50, S "%"⟩ ⟨36, 46, S "%"⟩),
  (S "hematocrit", .mf ⟨40, 50, S "%"⟩ ⟨36, 46, S "%"⟩),
  (S "mcv", .flat ⟨83, 101, S "fL"⟩),
  (S "mean corpuscular volume", .flat ⟨83, 101, S "fL"⟩),
  (S "mch", .flat ⟨27, 32, S "pg"⟩),
  (S "mean corpuscular hemoglobin", .flat ⟨27, 32, S "pg"⟩),
  (S "mchc", .flat ⟨q 315 10, q 345 10, S "gm/dl"⟩),
  (S "mean corpuscular hemoglobin concentration", .flat ⟨q 315 10, q 345 10, S "gm/dl"⟩),
  (S "rdw-cv", .flat ⟨q 116 10, 14, S "%"⟩),
  (S "rdw cv", .flat ⟨q 116 10, 14, S "%"⟩),
  (S "rdw", .flat ⟨q 116 10, 14, S "%"⟩),
  (S "rdw sd", .flat ⟨39, 46, S "fL"⟩),
  (S "rdw-sd", .flat ⟨39, 46, S "fL"⟩),
  (S "tlc", .flat ⟨4000, 10000, S "cells/cumm"⟩),
  (S "total leucocyte count", .flat ⟨4000, 10000, S "cells/cumm"⟩),
  (S "total leukocyte count", .flat ⟨4000, 10000, S "cells/cumm"⟩),
  (S "wbc", .flat ⟨4000, 10000, S "cells/cumm"⟩),
  (S "wbc count", .flat ⟨4000, 10000, S "cells/cumm"⟩),
  (S "white blood cell count", .flat ⟨4000, 10000, S "cells/cumm"⟩),
  (S "neutrophils", .flat ⟨40, 80, S "%"⟩),
  (S "neutrophil", .flat ⟨40, 80, S "%"⟩),
  (S "lymphocytes", .flat ⟨20, 40, S "%"⟩),
  (S "lymphocyte", .flat ⟨20, 40, S "%"⟩),
  (S "eosinophils", .flat ⟨1, 6, S "%"⟩),
  (S "eosinophil", .flat ⟨1, 6, S "%"⟩),
  (S "monocytes", .flat ⟨2, 10, S "%"⟩),
  (S "monocyte", .flat ⟨2, 10, S "%"⟩),
  (S "basophils", .flat ⟨0, 2, S "%"⟩),
  (S "basophil", .flat ⟨0, 2, S "%"⟩)]

/-- `REFERENCE_RANGES`, part 2: absolute counts, platelets, blood sugar
(source order preserved). -/
def REFERENCE_RANGES_2 : List (Chars × Entry) := [
  (S "anc", .flat ⟨2, 7, S "10³/μL"⟩),
  (S "absolute neutrophil count", .flat ⟨2, 7, S "10³/μL"⟩),
  (S "alc", .flat ⟨1, 3, S "10³/μL"⟩),
  (S "absolute lymphocyte count", .flat ⟨1, 3, S "10³/μL"⟩),
  (S "aec", .flat ⟨q 2 100, q 5 10, S "10³/μL"⟩),
  (S "absolute eosinophil count", .flat ⟨q 2 100, q 5 10, S "10³/μL"⟩),
  (S "amc", .flat ⟨q 2 10, 1, S "10³/μL"⟩),
  (S "absolute monocyte count", .flat ⟨q 2 10, 1, S "10³/μL"⟩),
  (S "abc", .flat ⟨q 2 100, q 1 10, S "10³/μL"⟩),
  (S "absolute basophil count", .flat ⟨q 2 100, q 1 10, S "10³/μL"⟩),
  (S "platelet count", .flat ⟨q 15 10, q 41 10, S "Lakhs/cmm"⟩),
  (S "platelet", .flat ⟨q 15 10, q 41 10, S "Lakhs/cmm"⟩),
  (S "plt", .flat ⟨q 15 10, q 41 10, S "Lakhs/cmm"⟩),
  (S "mpv", .flat ⟨8, 13, S "fL"⟩),
  (S "mean platelet volume", .flat ⟨8, 13, S "fL"⟩),
  (S "glucose", .flat ⟨70, 100, S "mg/dl"⟩),
  (S "fbs", .flat ⟨70, 100, S "mg/dl"⟩),
  (S "fasting blood sugar", .flat ⟨70, 100, S "mg/dl"⟩),
  (S "fasting glucose", .flat ⟨70, 100, S "mg/dl"⟩),
  (S "ppbs", .flat ⟨70, 140, S "mg/dl"⟩),
  (S "post prandial blood sugar", .flat ⟨70, 140, S "mg/dl"⟩),
  (S "rbs", .flat ⟨70, 140, S "mg/dl"⟩),
  (S "random blood sugar", .flat ⟨70, 140, S "mg/dl"⟩),
  (S "hba1c", .flat ⟨4, q 56 10, S "%"⟩)]

/-- `REFERENCE_RANGES`, part 3: lipid profile, kidney function, liver
function (source order preserved). -/
def REFERENCE_RANGES_3 : List (Chars × Entry) := [
  (S "cholesterol", .flat ⟨0, 200, S "mg/dl"⟩),
  (S "total cholesterol", .flat ⟨0, 200, S "mg/dl"⟩),
  (S "hdl", .flat ⟨40, 60, S "mg/dl"⟩),
  (S "ldl", .flat ⟨0, 100, S "mg/dl"⟩),
  (S "vldl", .flat ⟨5, 40, S "mg/dl"⟩),
  (S "triglycerides", .flat ⟨0, 150, S "mg/dl"⟩),
  (S "triglyceride", .flat ⟨0, 150, S "mg/dl"⟩),
  (S "creatinine", .mf ⟨q 7 10, q 13 10, S "mg/dl"⟩ ⟨q 6 10, q 11 10, S "mg/dl"⟩),
  (S "urea", .flat ⟨15, 40, S "mg/dl"⟩),
  (S "blood urea", .flat ⟨15, 40, S "mg/dl"⟩),
  (S "bun", .flat ⟨7, 20, S "mg/dl"⟩),
  (S "uric acid", .mf ⟨q 34 10, 7, S "mg/dl"⟩ ⟨q 24 10, 6, S "mg/dl"⟩),
  (S "bilirubin", .flat ⟨q 1 10, q 12 10, S "mg/dl"⟩),
  (S "total bilirubin", .flat ⟨q 1 10, q 12 10, S "mg/dl"⟩),
  (S "direct bilirubin", .flat ⟨0, q 3 10, S "mg/dl"⟩),
  (S "indirect bilirubin", .flat ⟨q 1 10, q 9 10, S "mg/dl"⟩),
  (S "sgot", .flat ⟨0, 40, S "U/L"⟩),
  (S "sgpt", .flat ⟨0, 40, S "U/L"⟩),
  (S "ast", .flat ⟨0, 40, S "U/L"⟩),
  (S "alt", .flat ⟨0, 40, S "U/L"⟩),
  (S "alp", .flat ⟨44, 147, S "U/L"⟩),
  (S "alkaline phosphatase", .flat ⟨44, 147, S "U/L"⟩),
  (S "ggt", .flat ⟨0, 50, S "U/L"⟩),
  (S "protein", .flat ⟨6, q 83 10, S "g/dl"⟩),
  (S "total protein", .flat ⟨6, q 83 10, S "g/dl"⟩),
  (S "albumin", .flat ⟨q 35 10, 5, S "g/dl"⟩),
  (S "globulin", .flat ⟨2, q 35 10, S "g/dl"⟩)]

/-- `REFERENCE_RANGES`, part 4: electrolytes, thyroid, others (source
order preserved). -/
def REFERENCE_RANGES_4 : List (Chars × Entry) := [
  (S "sodium", .flat ⟨136, 145, S "mEq/L"⟩),
  (S "potassium", .flat ⟨q 35 10, 5, S "mEq/L"⟩),
  (S "calcium", .flat ⟨q 85 10, q 105 10, S "mg/dl"⟩),
  (S "chloride", .flat ⟨98, 106, S "mEq/L"⟩),
  (S "tsh", .flat ⟨q 4 10, 4, S "μIU/mL"⟩),
  (S "t3", .flat ⟨80, 200, S "ng/dl"⟩),
  (S "t4", .flat ⟨q 51 10, q 141 10, S "μg/dl"⟩),
  (S "esr", .mf ⟨0, 15, S "mm/hr"⟩ ⟨0, 20, S "mm/hr"⟩),
  (S "vitamin d", .flat ⟨30, 100, S "ng/mL"⟩),
  (S "vitamin b12", .flat ⟨200, 900, S "pg/mL"⟩),
  (S "iron", .mf ⟨60, 170, S "μg/dL"⟩ ⟨37, 145, S "μg/dL"⟩),
  (S "ferritin", .mf ⟨30, 400, S "ng/mL"⟩ ⟨15, 150, S "ng/mL"⟩)]

/-- The `REFERENCE_RANGES` table of `backend/utils/referenceRanges.js`,
in source order (the order is significant: partial matching takes the
first hit).  Split into four chunks purely because very long list
literals elaborate slowly; the concatenation is the table verbatim. -/
def REFERENCE_RANGES : List (Chars × Entry) :=
  REFERENCE_RANGES_1 ++ REFERENCE_RANGES_2 ++ REFERENCE_RANGES_3 ++ REFERENCE_RANGES_4

/-- `getGenderSpecificRange` (healthAnalysis.js, lines 421-436): pick the
gender-specific sub-range; for the string "Other" return the union
(widest) range; any other gender string falls to the female branch,
mirroring the JS ternary. -/
def getGenderSpecificRange (e : Entry) (gender : Chars) : Range :=
  match e with
  | .mf male female =>
    if gender == S "Other" then
      ⟨min male.min female.min, max male.max female.max, male.unit⟩
    else if gender == S "Male" then male else female
  | .flat r => r

/-- Exact-key lookup `REFERENCE_RANGES[normalized]` (plain data lookup;
keys are unique in the table). -/
def findEntry (key : Chars) : Option Entry :=
  (REFERENCE_RANGES.find? (fun p => p.1 == key)).map (fun p => p.2)

/-- `getReferenceRange` (healthAnalysis.js, lines 398-413): normalize,
exact match first, else the first key related by substring containment
in either direction. -/
def getReferenceRange (markerName gender : Chars) : Option Range :=
  let normalized := normalizeMarkerName markerName
  match findEntry normalized with
  | some e => some (getGenderSpecificRange e gender)
  | none =>
    match REFERENCE_RANGES.find?
        (fun p => jsIncludes normalized p.1 || jsIncludes p.1 normalized) with
    | some p => some (getGenderSpecificRange p.2 gender)
    | none => none

/-- `isAbnormal` (healthAnalysis.js, lines 445-451).  The table never
stores `null` bounds, so the JS `range.min === null` guard is vacuous. -/
def isAbnormal (markerName : Chars) (value : ℚ) (gender : Chars) : Bool :=
  match getReferenceRange markerName gender with
  | none => false
  | some range => value < range.min || value > range.max

/-- `getStatus` (healthAnalysis.js, lines 460-468). -/
def getStatus (markerName : Chars) (value : ℚ) (gender : Chars) : Chars :=
  match getReferenceRange markerName gender with
  | none => S "unknown"
  | some range =>
    if value < range.min then S "low"
    else if value > range.max then S "high"
    else S "normal"

/-- Severity labels returned by `getSeverity`. -/
inductive Severity where
  | normal | slightly_low | slightly_high | significantly_low | significantly_high | unknown
deriving DecidableEq

/-- JS test `num / den * 100 > 20` with IEEE semantics: when `den = 0`
the quotient is `±Infinity` (or `NaN` for `0/0`), so the comparison is
true exactly when `num > 0`. -/
def jsPercentGT20 (num den : ℚ) : Bool :=
  if den = 0 then num > 0 else num / den * 100 > 20

/-- `getSeverity` (healthAnalysis.js, lines 477-495): strictly more than
20 percent beyond the breached bound is "significant". -/
def getSeverity (markerName : Chars) (value : ℚ) (gender : Chars) : Severity :=
  match getReferenceRange markerName gender with
  | none => .unknown
  | some range =>
    if value ≥ range.min ∧ value ≤ range.max then .normal
    else if value < range.min then
      if jsPercentGT20 (range.min - value) range.min then .significantly_low else .slightly_low
    else
      if jsPercentGT20 (value - range.max) range.max then .significantly_high else .slightly_high

/-- Decimal digits of an integer (used for JS template interpolation of
numbers; the modelled values are integers wherever the claims look). -/
def intToChars (i : Int) : Chars :=
  if i < 0 then '-' :: Nat.toDigits 10 i.natAbs else Nat.toDigits 10 i.natAbs

/-- Rendering of a JS number in template strings.  Integer-valued
rationals render as decimal integers; non-integers render as
`num/den` — an explicit abstraction of JS float formatting, which no
claim inspects. -/
def ratToChars (q : ℚ) : Chars :=
  if q.den = 1 then intToChars q.num
  else intToChars q.num ++ S "/" ++ Nat.toDigits 10 q.den

/-- `formatReferenceRange` (healthAnalysis.js, lines 503-507). -/
def formatReferenceRange (markerName gender : Chars) : Chars :=
  match getReferenceRange markerName gender with
  | none => S "N/A"
  | some range => trimChars (ratToChars range.min ++ S " - " ++ ratToChars range.max ++ S " " ++ range.unit)

/-! ### Intent detection (`backend/routes/auth.js`, `detectIntent`, lines 193-223) -/

/-- Guard of the `abnormal` branch of `detectIntent`. -/
def abnormalCond (text : Chars) : Bool :=
  jsIncludes text (S "abnormal") || jsIncludes text (S "out of range")

/-- Guard of the `summary` branch of `detectIntent`. -/
def summaryCond (text : Chars) : Bool :=
  jsIncludes text (S "summarize") || jsIncludes text (S "summary")

/-- Guard of the `interpretation` branch of `detectIntent`. -/
def interpretationCond (text : Chars) : Bool :=
  jsIncludes text (S "do i have") || jsIncludes text (S "health issue") ||
  jsIncludes text (S "problem") || jsIncludes text (S "concern")

/-- Guard of the `advice` branch of `detectIntent`. -/
def adviceCond (text : Chars) : Bool :=
  jsIncludes text (S "suggest") || jsIncludes text (S "improve") ||
  jsIncludes text (S "what should i do") || jsIncludes text (S "how can i")

/-- `detectIntent` (auth.js, lines 193-223): keyword classification with
fixed precedence and `summary` as the safe default. -/
def detectIntent (message : Chars) : Chars :=
  let text := toLowerStr message
  if abnormalCond text then S "abnormal"
  else if summaryCond text then S "summary"
  else if interpretationCond text then S "interpretation"
  else if adviceCond text then S "advice"
  else S "summary"

/-! ### Response validation and filtering (unnamed service `part_007`,
`OpenAILangChainService`) -/

/-- The condition alternation shared by the first two forbidden patterns:
`(diabetes|anemia|cancer|disease|condition)`. -/
def conditionAlts : List Chars :=
  [S "diabetes", S "anemia", S "cancer", S "disease", S "condition"]

/-- Literal expansion of `/you have (diabetes|...)/gi`. -/
def youHaveLits : List Chars := conditionAlts.map (fun c => S "you have " ++ c)

/-- Literal expansion of the optional-apostrophe pattern
`/you don'?t have (diabetes|...)/gi`. -/
def youDontHaveLits : List Chars :=
  conditionAlts.map (fun c => S "you don" ++ [apos] ++ S "t have " ++ c) ++
  conditionAlts.map (fun c => S "you dont have " ++ c)

/-- The ordered `forbiddenPhrases` pattern table of
`_validateAndFilterResponse` (part_007, lines 176-189), with each
case-insensitive regular expression expanded into its literal
alternatives (longer alternatives first where one could shadow another,
mirroring greedy `s?` matching).  All literals are stored lowercase;
matching is case-insensitive. -/
def forbiddenPhrases : List Chars :=
  youHaveLits ++ youDontHaveLits ++
  [S "you are diagnosed with", S "no indication of", S "this indicates",
   S "suggests you have", S "suggests the presence of",
   S "suggest you have", S "suggest the presence of",
   S "you are healthy", S "you are suffering",
   S "confirms that you", S "confirms the diagnosis",
   S "confirm that you", S "confirm the diagnosis",
   S "take this medication", S "take these pills",
   S "prescribed medication", S "prescribed drug", S "prescribed medicine",
   S "prescribe medication", S "prescribe drug", S "prescribe medicine",
   S "you need to take", S "start taking"]

/-- Left-to-right non-overlapping case-insensitive replacement of the
(lowercase) literal `pat` by `repl`, the semantics of
`text.replace(/pat/gi, repl)` for a literal pattern.  `fuel` bounds the
scan; callers pass the text length, which suffices because every step
consumes at least one character. -/
def replaceScan (pat repl : Chars) : Nat → Chars → Chars
  | _, [] => []
  | 0, s => s
  | fuel + 1, c :: t =>
    if pat ≠ [] ∧ toLowerStr (List.take pat.length (c :: t)) == pat then
      repl ++ replaceScan pat repl fuel (List.drop pat.length (c :: t))
    else
      c :: replaceScan pat repl fuel t

/-- Case-insensitive global replacement of one literal pattern. -/
def replaceAllCI (pat repl s : Chars) : Chars := replaceScan pat repl s.length s

/-- The neutral redirect phrase substituted for forbidden phrases. -/
def redirectPhrase : Chars := S "consult your doctor about"

/-- `_validateAndFilterResponse` (part_007, lines 175-199): each pattern
in order has all of its occurrences replaced by the redirect phrase (the
JS `test`-then-global-`replace` loop); the response is never rejected. -/
def validateAndFilterResponse (text : Chars) : Chars :=
  forbiddenPhrases.foldl (fun t p => replaceAllCI p redirectPhrase t) text

/-- The fixed medical disclaimer of the service constructor (part_007,
line 18). -/
def disclaimer : Chars :=
  S "\n\n⚠️ **Medical Disclaimer:** This is educational information only and is not a substitute for professional medical advice, diagnosis, or treatment. Always consult your healthcare provider for medical concerns."

/-- Result object of `generateMedicalResponse`. -/
structure GenResult where
  response : Chars
  model : Chars
deriving DecidableEq

/-- `generateMedicalResponse` (part_007, lines 48-118).  The external
LLM call is a parameter: `llmResult` is what `documentChain.invoke`
returned (or the error it raised).  Missing credentials raise
`OpenAI API key not configured` before the `try` block; chain errors
are re-wrapped with a `Failed to generate response:` prefix; a
successful raw response is filtered and the disclaimer appended. -/
def generateMedicalResponse (apiConfigured : Bool) (llmResult : Except Chars Chars) :
    Except Chars GenResult :=
  if !apiConfigured then .error (S "OpenAI API key not configured")
  else
    match llmResult with
    | .ok raw => .ok ⟨validateAndFilterResponse raw ++ disclaimer, S "gpt-4o-mini"⟩
    | .error e => .error (S "Failed to generate response: " ++ e)

/-! ### Dates (the JS `Date` operations used by `parseTimeRange` of
`backend/routes/chat.js`) -/

/-- A calendar timestamp in local time; `month` is 0-based as in JS. -/
structure DateTime where
  year : Int
  month : Nat
  day : Nat
  hour : Nat
  minute : Nat
  second : Nat
deriving DecidableEq

/-- Gregorian leap-year test. -/
def isLeapYear (y : Int) : Bool :=
  y % 4 == 0 && (!(y % 100 == 0) || y % 400 == 0)

/-- Days in a (0-based) month of a given year. -/
def daysInMonth (y : Int) (m : Nat) : Nat :=
  match m with
  | 1 => if isLeapYear y then 29 else 28
  | 3 | 5 | 8 | 10 => 30
  | _ => 31

/-- `new Date(year, month, day, hh, mm, ss)` for the argument shapes the
code uses: `month` may be any integer (JS normalizes it into the year),
and `day` is either positive (kept as is; the call sites always pass a
day that exists in the month) or `0`, which JS resolves to the last day
of the preceding month. -/
def jsNewDate (y m d : Int) (hh mi ss : Nat) : DateTime :=
  let total := y * 12 + m
  if 1 ≤ d then
    ⟨Int.fdiv total 12, (Int.fmod total 12).toNat, d.toNat, hh, mi, ss⟩
  else
    let total2 := total - 1
    let py := Int.fdiv total2 12
    let pm := (Int.fmod total2 12).toNat
    ⟨py, pm, daysInMonth py pm, hh, mi, ss⟩

/-- JS `date.setMonth(m)`: the month is normalized into the year keeping
the day of month; if the day exceeds the new month's length, the excess
rolls into the following month (at most one roll is ever needed since
days are at most 31). -/
def jsSetMonth (dt : DateTime) (m : Int) : DateTime :=
  let total := dt.year * 12 + m
  let ny := Int.fdiv total 12
  let nm := (Int.fmod total 12).toNat
  let dim := daysInMonth ny nm
  if dt.day ≤ dim then ⟨ny, nm, dt.day, dt.hour, dt.minute, dt.second⟩
  else
    let total2 := total + 1
    ⟨Int.fdiv total2 12, (Int.fmod total2 12).toNat, dt.day - dim, dt.hour, dt.minute, dt.second⟩

/-- JS `date.setFullYear(y)`: keep month and day; a Feb 29 that does not
exist in the target year rolls into March. -/
def jsSetFullYear (dt : DateTime) (y : Int) : DateTime :=
  let dim := daysInMonth y dt.month
  if dt.day ≤ dim then ⟨y, dt.month, dt.day, dt.hour, dt.minute, dt.second⟩
  else ⟨y, dt.month + 1, dt.day - dim, dt.hour, dt.minute, dt.second⟩

/-- JS `date.setDate(d)` for the bounded use `now.getDate() - 7`: a
non-positive day rolls back into the previous month (one roll suffices
for the call site, whose argument is at least `-6`). -/
def jsSetDate (dt : DateTime) (d : Int) : DateTime :=
  if 1 ≤ d then ⟨dt.year, dt.month, d.toNat, dt.hour, dt.minute, dt.second⟩
  else
    let total2 := dt.year * 12 + (dt.month : Int) - 1
    let py := Int.fdiv total2 12
    let pm := (Int.fmod total2 12).toNat
    ⟨py, pm, (d + daysInMonth py pm).toNat, dt.hour, dt.minute, dt.second⟩

/-! ### Time-range and topic parsing (`backend/routes/chat.js`,
lines 176-281) -/

/-- The result object of `parseTimeRange`; branches that do not set
`latest` leave it `false` (JS `undefined` is falsy). -/
structure TimeRange where
  fromDate : DateTime
  toDate : DateTime
  specific : Bool
  latest : Bool
deriving DecidableEq

/-- JS `\w` word characters (ASCII letters, digits, underscore). -/
def isWordChar (c : Char) : Bool := c.isAlphanum || c == '_'

/-- Whole-word hit of `w` at the head of `s`, given the character just
before this position (`none` at the start of the string): the JS `\b`
boundaries on both sides of the alternative. -/
def wordHitAt (w s : Chars) (prev : Option Char) : Bool :=
  w.isPrefixOf s &&
  (match prev with | none => true | some c => !isWordChar c) &&
  (match s.drop w.length with | [] => true | c :: _ => !isWordChar c)

/-- Scan of all positions of a string for a whole-word occurrence. -/
def wordSearchAux (w : Chars) : Option Char → Chars → Bool
  | _, [] => false
  | prev, c :: t => wordHitAt w (c :: t) prev || wordSearchAux w (some c) t

/-- `/\b(alt1|alt2|...)\b/.test(s)` for a list of literal alternatives. -/
def matchesWordAny (alts : List Chars) (s : Chars) : Bool :=
  alts.any (fun w => wordSearchAux w none s)

/-- The `monthPatterns` table (chat.js, lines 182-195). -/
def monthPatterns : List (List Chars × Nat) := [
  ([S "january", S "jan"], 0),
  ([S "february", S "feb"], 1),
  ([S "march", S "mar"], 2),
  ([S "april", S "apr"], 3),
  ([S "may"], 4),
  ([S "june", S "jun"], 5),
  ([S "july", S "jul"], 6),
  ([S "august", S "aug"], 7),
  ([S "september", S "sep", S "sept"], 8),
  ([S "october", S "oct"], 9),
  ([S "november", S "nov"], 10),
  ([S "december", S "dec"], 11)]

/-- Guard of the past-year branch of `parseTimeRange` (chat.js, 212). -/
def relPastYearCue (lower : Chars) : Bool :=
  jsIncludes lower (S "past year") || jsIncludes lower (S "last year")

/-- Guard of the this-year branch of `parseTimeRange` (chat.js, 218). -/
def relThisYearCue (lower : Chars) : Bool := jsIncludes lower (S "this year")

/-- Guard of the six-month branch of `parseTimeRange` (chat.js, 223). -/
def rel6MonthsCue (lower : Chars) : Bool :=
  jsIncludes lower (S "past 6 months") || jsIncludes lower (S "last 6 months")

/-- Guard of the three-month branch of `parseTimeRange` (chat.js, 229). -/
def rel3MonthsCue (lower : Chars) : Bool :=
  jsIncludes lower (S "past 3 months") || jsIncludes lower (S "last 3 months")

/-- Guard of the one-month branch of `parseTimeRange` (chat.js, 235). -/
def rel1MonthCue (lower : Chars) : Bool :=
  jsIncludes lower (S "past 1 month") || jsIncludes lower (S "last 1 month") ||
  jsIncludes lower (S "last month")

/-- Guard of the week branch of `parseTimeRange` (chat.js, 241). -/
def relWeekCue (lower : Chars) : Bool :=
  jsIncludes lower (S "past week") || jsIncludes lower (S "last week")

/-- Guard of the latest branch of `parseTimeRange` (chat.js, 247). -/
def relLatestCue (lower : Chars) : Bool :=
  jsIncludes lower (S "latest") || jsIncludes lower (S "recent") ||
  jsIncludes lower (S "last report")

/-- `parseTimeRange` (chat.js, lines 176-254): month names by whole-word
match (most recent non-future occurrence), then relative phrases in
source order, then `latest`-style phrases, defaulting to the full
window from Jan 1, 2000 to now. -/
def parseTimeRange (now : DateTime) (message : Chars) : TimeRange :=
  let lower := toLowerStr message
  match monthPatterns.find? (fun p => matchesWordAny p.1 lower) with
  | some p =>
    let month := p.2
    let year := if month > now.month then now.year - 1 else now.year
    { fromDate := jsNewDate year month 1 0 0 0,
      toDate := jsNewDate year ((month : Int) + 1) 0 23 59 59,
      specific := true, latest := false }
  | none =>
    if relPastYearCue lower then
      { fromDate := jsSetFullYear now (now.year - 1), toDate := now, specific := true, latest := false }
    else if relThisYearCue lower then
      { fromDate := ⟨now.year, 0, 1, 0, 0, 0⟩, toDate := now, specific := true, latest := false }
    else if rel6MonthsCue lower then
      { fromDate := jsSetMonth now ((now.month : Int) - 6), toDate := now, specific := true, latest := false }
    else if rel3MonthsCue lower then
      { fromDate := jsSetMonth now ((now.month : Int) - 3), toDate := now, specific := true, latest := false }
    else if rel1MonthCue lower then
      { fromDate := jsSetMonth now ((now.month : Int) - 1), toDate := now, specific := true, latest := false }
    else if relWeekCue lower then
      { fromDate := jsSetDate now ((now.day : Int) - 7), toDate := now, specific := true, latest := false }
    else if relLatestCue lower then
      { fromDate := jsNewDate 2000 0 1 0 0 0, toDate := now, specific := false, latest := true }
    else
      { fromDate := jsNewDate 2000 0 1 0 0 0, toDate := now, specific := false, latest := false }

/-- `true` iff some month pattern fires on the message (the guard of the
month branch of `parseTimeRange`). -/
def hasMonthCue (message : Chars) : Bool :=
  monthPatterns.any (fun p => matchesWordAny p.1 (toLowerStr message))

/-- `true` iff any relative/latest phrase guard of `parseTimeRange`
fires on the message. -/
def hasRelativeCue (message : Chars) : Bool :=
  let lower := toLowerStr message
  relPastYearCue lower || relThisYearCue lower || rel6MonthsCue lower ||
  rel3MonthsCue lower || rel1MonthCue lower || relWeekCue lower || relLatestCue lower

/-- A message carries a temporal cue iff a month or relative guard fires. -/
def hasTemporalCue (message : Chars) : Bool :=
  hasMonthCue message || hasRelativeCue message

/-- One topic row of the `healthTopics` table. -/
structure HealthTopic where
  topic : Chars
  relatedMarkers : List Chars
deriving DecidableEq

/-- The `healthTopics` table (chat.js, lines 262-272), in source order. -/
def healthTopics : List HealthTopic := [
  ⟨S "anemia", [S "hemoglobin", S "hb", S "rbc", S "red blood cell", S "hematocrit", S "mcv", S "mch", S "mchc", S "iron", S "ferritin", S "pcv"]⟩,
  ⟨S "diabetes", [S "glucose", S "blood sugar", S "hba1c", S "fasting glucose", S "random glucose", S "sugar"]⟩,
  ⟨S "thyroid", [S "tsh", S "t3", S "t4", S "thyroid"]⟩,
  ⟨S "liver", [S "alt", S "ast", S "sgpt", S "sgot", S "bilirubin", S "albumin", S "liver"]⟩,
  ⟨S "kidney", [S "creatinine", S "urea", S "bun", S "egfr", S "uric acid", S "kidney"]⟩,
  ⟨S "cholesterol", [S "cholesterol", S "ldl", S "hdl", S "triglycerides", S "lipid"]⟩,
  ⟨S "infection", [S "wbc", S "white blood cell", S "neutrophil", S "lymphocyte", S "esr", S "crp"]⟩,
  ⟨S "vitamin", [S "vitamin d", S "vitamin b12", S "b12", S "folate", S "folic acid"]⟩,
  ⟨S "platelet", [S "platelet", S "plt", S "mpv"]⟩]

/-- `extractHealthTopic` (chat.js, lines 259-281): first topic whose
name occurs as a substring of the lowercased message. -/
def extractHealthTopic (message : Chars) : Option HealthTopic :=
  let text := toLowerStr message
  healthTopics.find? (fun t => jsIncludes text t.topic)

/-! ### Context assembly and orchestration (`backend/routes/chat.js`,
router.post handler, lines 292-500) -/

/-- A lab observation as stored in the lab-data store (external
collaborator); `isAbnormal` is the stored (possibly stale) flag. -/
structure LabResult where
  marker : Chars
  value : ℚ
  unit : Chars
  testDate : DateTime
  isAbnormal : Bool
deriving DecidableEq

/-- A family member record as consumed by the handler. -/
structure Member where
  name : Chars
  age : Nat
  gender : Chars
  existingConditions : List Chars
deriving DecidableEq

/-- Decimal digit rendering of a `Nat` (JS template interpolation). -/
def natToChars (n : Nat) : Chars := Nat.toDigits 10 n

/-- Short month names used by the `en-IN` date rendering. -/
def monthShortNames : List Chars :=
  [S "Jan", S "Feb", S "Mar", S "Apr", S "May", S "Jun",
   S "Jul", S "Aug", S "Sep", S "Oct", S "Nov", S "Dec"]

/-- Model of `new Date(d).toLocaleDateString("en-IN", ...)` with numeric
day, short month and numeric year, e.g. `15 Mar 2024`. -/
def dateToChars (d : DateTime) : Chars :=
  natToChars d.day ++ S " " ++ monthShortNames.getD d.month (S "???") ++ S " " ++ intToChars d.year

/-- One line of `formatLabResults` (chat.js, lines 405-416): the
reference range string and the out-of-range flag are recomputed from
the reference-range module with the member's gender; the stored
`isAbnormal` field is not consulted. -/
def formatLabLine (gender : Chars) (r : LabResult) : Chars :=
  dateToChars r.testDate ++ S " - " ++ r.marker ++ S ": " ++ ratToChars r.value ++ S " " ++ r.unit ++
  S " (Normal: " ++ formatReferenceRange r.marker gender ++ S ")" ++
  (if isAbnormal r.marker r.value gender then S " ⚠️ OUT OF RANGE" else S " ✓ Normal")

/-- `formatLabResults` (chat.js, lines 405-416): newline-joined lines. -/
def formatLabResults (results : List LabResult) (gender : Chars) : Chars :=
  List.intercalate (S "\n") (results.map (formatLabLine gender))

/-- The fixed guardrail preamble of the prompt (chat.js, lines 420-437),
ending just before the `User Question` line. -/
def promptPreamble : Chars :=
  S "\nCRITICAL INSTRUCTIONS - YOU MUST FOLLOW THESE EXACTLY:\n\n1. NEVER DIAGNOSE. You are NOT a doctor. You CANNOT and MUST NOT say:\n   - \"You have [disease]\" or \"You don" ++ [apos] ++
  S "t have [disease]\"\n   - \"This indicates [disease]\" or \"No indication of [disease]\"\n   - \"You are suffering from...\" or \"You are healthy\"\n   \n2. INSTEAD, you MUST ALWAYS say things like:\n   - \"Your [marker] is within the normal range, which is generally a positive sign. However, only a doctor can diagnose conditions like [disease] after a complete evaluation.\"\n   - \"Based on these values, there appears to be a low probability of [condition], but please consult a healthcare provider for proper diagnosis.\"\n   - \"These markers look normal/abnormal. For any concerns about [condition], please consult your doctor.\"\n\n3. For questions like \"do I have anemia/diabetes/etc\":\n   - Look at the RELEVANT markers (Hemoglobin, RBC for anemia; glucose for diabetes, etc.)\n   - State whether those markers are normal, high, or low\n   - NEVER diagnose - always say \"a doctor must evaluate this\" or similar\n\n4. Be CONCISE - 2-4 sentences max unless listing multiple markers\n\n---\n"

/-- The base prompt: preamble, quoted user question, patient metadata
block (chat.js, lines 419-448). -/
def promptBase (message : Chars) (member : Member) : Chars :=
  promptPreamble ++ S "\nUser Question: \"" ++ message ++
  S "\"\n\nPatient Information:\n- Age: " ++ natToChars member.age ++
  S "\n- Gender: " ++ member.gender ++
  (if member.existingConditions.length > 0 then
    S "\n- Existing Conditions: " ++ List.intercalate (S ", ") member.existingConditions
  else []) ++ S "\n\n"

/-- The labeled topic-relevant block (chat.js, lines 451-457). -/
def relevantSection (topic : Chars) (relevantMarkers : List LabResult) (gender : Chars) : Chars :=
  S "\nRELEVANT Lab Results for \"" ++ topic ++ S "\":\n" ++
  formatLabResults relevantMarkers gender ++ S "\n\n"

/-- The full-result block over the 50 most recent rows plus the closing
instruction (chat.js, lines 459-468). -/
def allSection (recentResults : List LabResult) (gender : Chars) : Chars :=
  S "\nAll Available Lab Results (" ++ natToChars recentResults.length ++
  S " most recent):\n" ++ formatLabResults recentResults gender ++
  S "\n\n---\n\nNow answer the user" ++ [apos] ++
  S "s question. Remember: NEVER diagnose. Always recommend consulting a doctor for diagnosis.\n"

/-- The prompt assembly of the handler (chat.js, lines 418-468): base
prompt, then the relevant block when a topic was detected and matched
rows exist, then the full set truncated to the 50 most recent rows. -/
def buildChatPrompt (message : Chars) (member : Member) (gender : Chars)
    (healthTopic : Option HealthTopic) (relevantMarkers labResults : List LabResult) : Chars :=
  let base := promptBase message member
  let withRelevant :=
    match healthTopic with
    | some t => if relevantMarkers.length > 0 then base ++ relevantSection t.topic relevantMarkers gender else base
    | none => base
  withRelevant ++ allSection (labResults.take 50) gender

/-- An HTTP JSON reply of the chat route (absent JSON fields are
`none`). -/
structure HttpReply where
  status : Nat
  success : Bool
  response : Option Chars
  message : Option Chars
  confidence : Option Chars
  labDataCount : Option Nat
deriving DecidableEq

/-- Outcome of the handler: a JSON reply, or delegation to the express
error middleware (`next(error)`). -/
inductive ChatOutcome where
  | reply (r : HttpReply)
  | nextError (e : Chars)
deriving DecidableEq

/-- Reply text when the window is empty but older data exists
(chat.js, line 385). -/
def foundButNone (anyResults : Nat) : Chars :=
  S "I found " ++ natToChars anyResults ++
  S " lab results for this profile, but none in the time period you specified. Try asking about \"all my reports\" or \"latest reports\" to see all available data."

/-- Reply text when the member has no observations at all
(chat.js, line 392). -/
def neverUploaded : Chars :=
  S "No lab results have been uploaded for this profile yet. Please upload some medical reports first."

/-- 503 body when the generation service is unconfigured
(chat.js, line 493). -/
def notConfiguredMsg : Chars := S "AI service is not configured properly."

/-- The chat handler after validation, member-ownership check and data
retrieval (chat.js, lines 344-499).  The external lab-data store is a
parameter: `labResults` is the window-filtered query result (sorted most
recent first) and `anyResults` is `countDocuments({ memberId })`; the
external LLM call is the `llmResult` parameter. -/
def chatRespond (message : Chars) (member : Member) (labResults : List LabResult)
    (anyResults : Nat) (apiConfigured : Bool) (llmResult : Except Chars Chars) : ChatOutcome :=
  let healthTopic := extractHealthTopic message
  let relevantMarkers :=
    match healthTopic with
    | some t => labResults.filter (fun r => t.relatedMarkers.any (fun m => jsIncludes (toLowerStr r.marker) m))
    | none => []
  if labResults.length = 0 then
    if anyResults > 0 then
      .reply ⟨200, true, some (foundButNone anyResults), none, some (S "none"), none⟩
    else
      .reply ⟨200, true, some neverUploaded, none, some (S "none"), none⟩
  else
    let memberGender := if member.gender.isEmpty then S "Female" else member.gender
    let _prompt := buildChatPrompt message member memberGender healthTopic relevantMarkers labResults
    match generateMedicalResponse apiConfigured llmResult with
    | .ok ai => .reply ⟨200, true, some ai.response, none, some (S "high"), some labResults.length⟩
    | .error e =>
      if jsIncludes e (S "API key") then
        .reply ⟨503, false, none, some notConfiguredMsg, none, none⟩
      else
        .nextError e

/-- Overwrite the stored (cached) abnormal flag of an observation;
used to state that the context assembly never reads this field. -/
def setStoredFlag (b : Bool) (r : LabResult) : LabResult := { r with isAbnormal := b }

/-! ## Theorems -/

/-- Appearing in the right part of a concatenation preserves a
substring hit. -/
lemma jsIncludes_append_left (x y s : Chars) (h : jsIncludes y s = true) :
    jsIncludes (x ++ y) s = true := by
  induction x with
  | nil => simpa using h
  | cons c t ih => simp [jsIncludes, ih]

/-- For a positive denominator, the JS percentage test
`num / den * 100 > 20` is the linear comparison `100 * num > 20 * den`. -/
lemma jsPercentGT20_pos (num den : ℚ) (hden : 0 < den) :
    jsPercentGT20 num den = true ↔ 100 * num > 20 * den := by
  unfold jsPercentGT20
  rw [if_neg (ne_of_gt hden)]
  rw [decide_eq_true_eq, gt_iff_lt, div_mul_eq_mul_div, lt_div_iff₀ hden, gt_iff_lt]
  constructor <;> intro h <;> linarith

/-- Claim C5: for every marker, value and gender, when
`getReferenceRange` finds a range, `isAbnormal` is true exactly when the
value is strictly below its min or strictly above its max; when no range
is found, `isAbnormal` is false (the function is total, so it never
throws). -/
theorem claim_C5_isAbnormal_iff (marker : Chars) (value : ℚ) (gender : Chars) :
    (∀ r : Range, getReferenceRange marker gender = some r →
      (isAbnormal marker value gender = true ↔ (value < r.min ∨ value > r.max))) ∧
    (getReferenceRange marker gender = none → isAbnormal marker value gender = false) := by
  constructor
  · intro r hr
    simp [isAbnormal, hr]
  · intro h
    simp [isAbnormal, h]

/-- Witness for C5 at the concrete input Hemoglobin 10 for a female
subject (range 12-15, so abnormal). -/
theorem claim_C5_isAbnormal_iff_witness :
    isAbnormal (S "hemoglobin") 10 (S "Female") = true :=
  ((claim_C5_isAbnormal_iff (S "hemoglobin") 10 (S "Female")).1
    ⟨12, 15, S "gm/dl"⟩ (by decide)).mpr (Or.inl (by decide))

/-- Counterexample to claim C6 as stated: the TLC value 3200 deviates
from the lower bound 4000 by exactly 20 percent of that bound
(`100 * (4000 - 3200) = 20 * 4000`), i.e. "20% or more", yet
`getSeverity` classifies it `slightly_low`, not `significantly_low`
(the source tests `percentBelow > 20`, strictly). -/
theorem claim_C6_counterexample :
    100 * ((4000 : ℚ) - 3200) = 20 * 4000 ∧
    getReferenceRange (S "tlc") (S "Female") = some ⟨4000, 10000, S "cells/cumm"⟩ ∧
    getSeverity (S "tlc") 3200 (S "Female") = Severity.slightly_low ∧
    Severity.slightly_low ≠ Severity.significantly_low := by
  have h : getReferenceRange (S "tlc") (S "Female") = some ⟨4000, 10000, S "cells/cumm"⟩ := by
    decide
  refine ⟨by norm_num, h, ?_, by decide⟩
  simp only [getSeverity, h, jsPercentGT20]
  norm_num

/-- Claim C6 amended: for a marker with a known well-formed range, a
value strictly more than 20 percent beyond the breached bound (relative
to that bound) is significantly low/high, a deviation of 20 percent or
less is slightly low/high, and any value inside the range - including
one exactly equal to min or max - is `normal`. -/
theorem claim_C6_severity_amended (marker : Chars) (value : ℚ) (gender : Chars) (r : Range)
    (hr : getReferenceRange marker gender = some r) (hwf : r.min ≤ r.max) :
    ((r.min ≤ value ∧ value ≤ r.max) → getSeverity marker value gender = .normal) ∧
    (value < r.min → 0 < r.min →
      ((getSeverity marker value gender = .significantly_low ↔ 100 * (r.min - value) > 20 * r.min) ∧
       (getSeverity marker value gender = .slightly_low ↔ 100 * (r.min - value) ≤ 20 * r.min))) ∧
    (r.max < value → 0 < r.max →
      ((getSeverity marker value gender = .significantly_high ↔ 100 * (value - r.max) > 20 * r.max) ∧
       (getSeverity marker value gender = .slightly_high ↔ 100 * (value - r.max) ≤ 20 * r.max))) := by
  simp only [getSeverity, hr]
  refine ⟨?_, ?_, ?_⟩
  · rintro ⟨h1, h2⟩
    rw [if_pos ⟨h1, h2⟩]
  · intro hlt hpos
    rw [if_neg (fun hc => absurd hc.1 (not_le.mpr hlt)), if_pos hlt]
    have hiff := jsPercentGT20_pos (r.min - value) r.min hpos
    cases hb : jsPercentGT20 (r.min - value) r.min with
    | true =>
      have hp := hiff.mp hb
      simp only [hb, if_true]
      exact ⟨by simp [hp], by simp [not_le.mpr hp]⟩
    | false =>
      have hp : ¬ 100 * (r.min - value) > 20 * r.min := fun h =>
        by simp [hiff.mpr h] at hb
      simp only [hb, Bool.false_eq_true, if_false]
      exact ⟨by simp [hp], by simp [le_of_not_lt hp]⟩
  · intro hgt hpos
    rw [if_neg (fun hc => absurd hc.2 (not_le.mpr hgt)),
      if_neg (not_lt.mpr (le_trans hwf (le_of_lt hgt)))]
    have hiff := jsPercentGT20_pos (value - r.max) r.max hpos
    cases hb : jsPercentGT20 (value - r.max) r.max with
    | true =>
      have hp := hiff.mp hb
      simp only [hb, if_true]
      exact ⟨by simp [hp], by simp [not_le.mpr hp]⟩
    | false =>
      have hp : ¬ 100 * (value - r.max) > 20 * r.max := fun h =>
        by simp [hiff.mpr h] at hb
      simp only [hb, Bool.false_eq_true, if_false]
      exact ⟨by simp [hp], by simp [le_of_not_lt hp]⟩

/-- Witness for the amended C6: TLC 3000 is 25 percent below the lower
bound 4000, hence significantly low. -/
theorem claim_C6_severity_amended_witness :
    getSeverity (S "tlc") 3000 (S "Female") = Severity.significantly_low :=
  (((claim_C6_severity_amended (S "tlc") 3000 (S "Female")
      ⟨4000, 10000, S "cells/cumm"⟩ (by decide) (by norm_num)).2.1
    (by norm_num) (by norm_num)).1).mpr (by norm_num)

/-- Claim C7: for a marker key of the table (in normalized form) whose
entry is gender-partitioned, `getReferenceRange` resolves `Male` to the
male sub-range, `Female` to the female sub-range, and `Other` to the
union range with elementwise min of mins and max of maxes. -/
theorem claim_C7_gender_resolution (k : Chars) (m f : Range)
    (hk : normalizeMarkerName k = k) (he : findEntry k = some (.mf m f)) :
    getReferenceRange k (S "Male") = some m ∧
    getReferenceRange k (S "Female") = some f ∧
    getReferenceRange k (S "Other") = some ⟨min m.min f.min, max m.max f.max, m.unit⟩ := by
  simp only [getReferenceRange, hk, he]
  exact ⟨rfl, rfl, rfl⟩

/-- Witness for C7 at the `hemoglobin` entry: the `Other` gender gets
the union of the male range 13-17 and the female range 12-15. -/
theorem claim_C7_gender_resolution_witness :
    getReferenceRange (S "hemoglobin") (S "Other") = some ⟨12, 17, S "gm/dl"⟩ := by
  have h := (claim_C7_gender_resolution (S "hemoglobin")
    ⟨13, 17, S "gm/dl"⟩ ⟨12, 15, S "gm/dl"⟩ (by decide) (by decide)).2.2
  rw [h]
  norm_num

/-- Claim C10 (implicit): a marker name that normalizes to the empty
string (empty, whitespace-only, or only parentheses/colons; a JS `null`
is also normalized to the empty string) is not reported as unknown:
the substring fallback accepts the first table key, so the hemoglobin
entry is returned, and a nameless marker with value 10 is classified
abnormal/low for a female subject instead of unknown. -/
theorem claim_C10_empty_marker_fallback :
    (∀ name gender : Chars, normalizeMarkerName name = [] →
      getReferenceRange name gender =
        some (getGenderSpecificRange (.mf ⟨13, 17, S "gm/dl"⟩ ⟨12, 15, S "gm/dl"⟩) gender)) ∧
    normalizeMarkerName [] = [] ∧
    normalizeMarkerName (S "   ") = [] ∧
    normalizeMarkerName (S "():") = [] ∧
    isAbnormal [] 10 (S "Female") = true ∧
    getStatus [] 10 (S "Female") = S "low" := by
  refine ⟨?_, by decide, by decide, by decide, by decide, by decide⟩
  intro name gender h
  simp only [getReferenceRange, h,
    (by decide : findEntry ([] : Chars) = none)]
  rw [(by decide : REFERENCE_RANGES.find?
      (fun p => jsIncludes [] p.1 || jsIncludes p.1 []) =
      some (S "hemoglobin", .mf ⟨13, 17, S "gm/dl"⟩ ⟨12, 15, S "gm/dl"⟩))]

/-- Witness for C10: the marker name `():` normalizes to empty and gets
the hemoglobin male range. -/
theorem claim_C10_empty_marker_fallback_witness :
    getReferenceRange (S "():") (S "Male") = some ⟨13, 17, S "gm/dl"⟩ :=
  claim_C10_empty_marker_fallback.1 (S "():") (S "Male") (by decide)

set_option maxRecDepth 40000 in
/-- Claim C1: every generated response is the filtered raw text with the
fixed disclaimer appended (forbidden phrases are rewritten to the
neutral redirect, the response is never rejected); in particular, for
raw text containing the diagnostic assertion `You have diabetes based on
these results.`, the filtered output replaces the assertion with
`consult your doctor about`, no longer contains `you have diabetes`
(case-insensitively), and still ends with the disclaimer; a second
instance shows every occurrence is replaced. -/
theorem claim_C1_filter_and_disclaimer :
    (∀ raw : Chars, generateMedicalResponse true (.ok raw) =
      .ok ⟨validateAndFilterResponse raw ++ disclaimer, S "gpt-4o-mini"⟩) ∧
    validateAndFilterResponse (S "You have diabetes based on these results.") =
      S "consult your doctor about based on these results." ∧
    jsIncludes
      (toLowerStr (validateAndFilterResponse (S "You have diabetes based on these results.") ++ disclaimer))
      (S "you have diabetes") = false ∧
    List.IsSuffix disclaimer
      (validateAndFilterResponse (S "You have diabetes based on these results.") ++ disclaimer) ∧
    validateAndFilterResponse (S "You have anemia. you HAVE ANEMIA.") =
      S "consult your doctor about. consult your doctor about." := by
  refine ⟨fun raw => rfl, by decide, by decide, List.suffix_append _ _, by decide⟩

/-- Claim C2: `detectIntent` classifies the four sample messages as
abnormal, summary, interpretation and advice; the keyword categories
apply in fixed precedence (abnormal over summarize over diagnostic over
suggestion); a message matching no category falls back to `summary`;
and every message lands in one of the four tags (never an error or
unrecognized state). -/
theorem claim_C2_detectIntent :
    detectIntent (S "Are any of my results abnormal?") = S "abnormal" ∧
    detectIntent (S "Summarize my results") = S "summary" ∧
    detectIntent (S "Do I have diabetes?") = S "interpretation" ∧
    detectIntent (S "How can I improve my iron levels?") = S "advice" ∧
    (∀ m : Chars, abnormalCond (toLowerStr m) = true → detectIntent m = S "abnormal") ∧
    (∀ m : Chars, abnormalCond (toLowerStr m) = false → summaryCond (toLowerStr m) = true →
      detectIntent m = S "summary") ∧
    (∀ m : Chars, abnormalCond (toLowerStr m) = false → summaryCond (toLowerStr m) = false →
      interpretationCond (toLowerStr m) = true → detectIntent m = S "interpretation") ∧
    (∀ m : Chars, abnormalCond (toLowerStr m) = false → summaryCond (toLowerStr m) = false →
      interpretationCond (toLowerStr m) = false → adviceCond (toLowerStr m) = true →
      detectIntent m = S "advice") ∧
    (∀ m : Chars, abnormalCond (toLowerStr m) = false → summaryCond (toLowerStr m) = false →
      interpretationCond (toLowerStr m) = false → adviceCond (toLowerStr m) = false →
      detectIntent m = S "summary") ∧
    (∀ m : Chars, detectIntent m = S "abnormal" ∨ detectIntent m = S "summary" ∨
      detectIntent m = S "interpretation" ∨ detectIntent m = S "advice") := by
  refine ⟨by decide, by decide, by decide, by decide, ?_, ?_, ?_, ?_, ?_, ?_⟩
  · intro m h; simp [detectIntent, h]
  · intro m h1 h2; simp [detectIntent, h1, h2]
  · intro m h1 h2 h3; simp [detectIntent, h1, h2, h3]
  · intro m h1 h2 h3 h4; simp [detectIntent, h1, h2, h3, h4]
  · intro m h1 h2 h3 h4; simp [detectIntent, h1, h2, h3, h4]
  · intro m; simp only [detectIntent]; split_ifs <;> simp

/-- Witness for C2: a message containing both an abnormal keyword and a
summarize keyword is classified `abnormal` by precedence. -/
theorem claim_C2_detectIntent_witness :
    detectIntent (S "please summarize any abnormal values") = S "abnormal" :=
  claim_C2_detectIntent.2.2.2.2.1 (S "please summarize any abnormal values") (by decide)

/-- `new Date(y, 2, 1)` is March 1 of year `y`, for symbolic `y`. -/
lemma jsNewDate_march_from (y : ℤ) :
    jsNewDate y 2 1 0 0 0 = ⟨y, 2, 1, 0, 0, 0⟩ := by
  simp only [jsNewDate]
  rw [if_pos (by norm_num : (1:ℤ) ≤ 1)]
  have h1 : Int.fdiv (y * 12 + 2) 12 = y := by
    rw [Int.fdiv_eq_ediv _ (by norm_num)]; omega
  have h2 : (Int.fmod (y * 12 + 2) 12).toNat = 2 := by
    rw [Int.fmod_eq_emod _ (by norm_num)]; omega
  rw [h1, h2]
  rfl

/-- `new Date(y, 3, 0, 23, 59, 59)` is March 31 of year `y` at
23:59:59, for symbolic `y` (day 0 rolls back to the last day of the
preceding month). -/
lemma jsNewDate_march_to (y : ℤ) :
    jsNewDate y 3 0 23 59 59 = ⟨y, 2, 31, 23, 59, 59⟩ := by
  simp only [jsNewDate]
  rw [if_neg (by norm_num : ¬ (1:ℤ) ≤ 0)]
  have h1 : Int.fdiv (y * 12 + 3 - 1) 12 = y := by
    rw [Int.fdiv_eq_ediv _ (by norm_num)]; omega
  have h2 : (Int.fmod (y * 12 + 3 - 1) 12).toNat = 2 := by
    rw [Int.fmod_eq_emod _ (by norm_num)]; omega
  rw [h1, h2]
  rfl

/-- Claim C3: month names are matched as whole words only: for any
current time, the message `summarize my March report` resolves to the
full calendar month of the most recent March not in the future (the
prior year when March is ahead of the current month); the message
`please summarize my results` fires no month pattern (regression for
`mar` inside `summarize`); and any message with no temporal cue at all
yields the window from the epoch floor January 1, 2000 to now. -/
theorem claim_C3_parseTimeRange :
    (∀ now : DateTime, parseTimeRange now (S "summarize my March report") =
      { fromDate := ⟨if 2 > now.month then now.year - 1 else now.year, 2, 1, 0, 0, 0⟩,
        toDate := ⟨if 2 > now.month then now.year - 1 else now.year, 2, 31, 23, 59, 59⟩,
        specific := true, latest := false }) ∧
    hasMonthCue (S "please summarize my results") = false ∧
    (∀ (msg : Chars) (now : DateTime), hasTemporalCue msg = false →
      parseTimeRange now msg =
        { fromDate := ⟨2000, 0, 1, 0, 0, 0⟩, toDate := now,
          specific := false, latest := false }) := by
  refine ⟨?_, by decide, ?_⟩
  · intro now
    have hfind : monthPatterns.find?
        (fun p => matchesWordAny p.1 (toLowerStr (S "summarize my March report"))) =
        some ([S "march", S "mar"], 2) := by decide
    simp only [parseTimeRange, hfind, Nat.cast_ofNat]
    rw [(by norm_num : ((2:ℤ) + 1) = 3), jsNewDate_march_from, jsNewDate_march_to]
  · intro msg now h
    simp only [hasTemporalCue, Bool.or_eq_false_iff] at h
    obtain ⟨hm, hr⟩ := h
    have hfind : monthPatterns.find?
        (fun p => matchesWordAny p.1 (toLowerStr msg)) = none := by
      rw [List.find?_eq_none]
      intro x hx
      simp only [hasMonthCue] at hm
      simpa using List.any_eq_false.mp hm x hx
    simp only [hasRelativeCue, Bool.or_eq_false_iff] at hr
    obtain ⟨⟨⟨⟨⟨⟨h1, h2⟩, h3⟩, h4⟩, h5⟩, h6⟩, h7⟩ := hr
    simp only [parseTimeRange, hfind, h1, h2, h3, h4, h5, h6, h7]
    rfl

/-- Witness for C3 at a concrete cue-free message and a concrete
current time. -/
theorem claim_C3_parseTimeRange_witness :
    parseTimeRange ⟨2024, 5, 15, 10, 0, 0⟩ (S "please summarize my results") =
      { fromDate := ⟨2000, 0, 1, 0, 0, 0⟩, toDate := ⟨2024, 5, 15, 10, 0, 0⟩,
        specific := false, latest := false } :=
  claim_C3_parseTimeRange.2.2 (S "please summarize my results")
    ⟨2024, 5, 15, 10, 0, 0⟩ (by decide)

/-- Claim C4: a window with zero observations always yields a normal
success reply with confidence `none` (never an error outcome), and the
two cases are distinguished: with older data present the reply counts
the member's results, says none fall in the requested period and
suggests broadening the query; with no data at all it states that no
reports have been uploaded; the two reply texts are never equal. -/
theorem claim_C4_empty_window :
    (∀ (msg : Chars) (mem : Member) (n : Nat) (cfg : Bool) (llm : Except Chars Chars),
      0 < n → chatRespond msg mem [] n cfg llm =
        .reply ⟨200, true, some (foundButNone n), none, some (S "none"), none⟩) ∧
    (∀ (msg : Chars) (mem : Member) (cfg : Bool) (llm : Except Chars Chars),
      chatRespond msg mem [] 0 cfg llm =
        .reply ⟨200, true, some neverUploaded, none, some (S "none"), none⟩) ∧
    (∀ n : Nat, jsIncludes (foundButNone n)
      (S "but none in the time period you specified") = true) ∧
    (∀ n : Nat, jsIncludes (foundButNone n) (S "Try asking about") = true) ∧
    jsIncludes neverUploaded (S "No lab results have been uploaded") = true ∧
    (∀ n : Nat, foundButNone n ≠ neverUploaded) := by
  refine ⟨?_, ?_, ?_, ?_, by decide, ?_⟩
  · intro msg mem n cfg llm h
    simp [chatRespond, h]
  · intro msg mem cfg llm
    simp [chatRespond]
  · intro n
    exact jsIncludes_append_left _ _ _ (by decide)
  · intro n
    exact jsIncludes_append_left _ _ _ (by decide)
  · intro n h
    have h2 : some 'I' = some 'N' := by
      calc some 'I' = (foundButNone n).head? := rfl
        _ = neverUploaded.head? := by rw [h]
        _ = some 'N' := rfl
    simp at h2

/-- Witness for C4 with three old observations outside the window. -/
theorem claim_C4_empty_window_witness :
    chatRespond (S "show my results from last month") ⟨S "Asha", 30, S "Female", []⟩
      [] 3 true (.ok (S "raw")) =
      .reply ⟨200, true, some (foundButNone 3), none, some (S "none"), none⟩ :=
  claim_C4_empty_window.1 (S "show my results from last month")
    ⟨S "Asha", 30, S "Female", []⟩ 3 true (.ok (S "raw")) (by norm_num)

/-- Claim C9: with observations present but the generation credentials
absent, the generation call fails with the distinguishable
`OpenAI API key not configured` error and the handler replies 503
service-unavailable with `success: false`; the data-insufficiency
outcome is instead a 200 success with confidence `none`; and no
unconfigured-service outcome equals any empty-window outcome. -/
theorem claim_C9_unconfigured_503 :
    (∀ (msg : Chars) (mem : Member) (labs : List LabResult) (n : Nat)
      (llm : Except Chars Chars), labs ≠ [] →
      chatRespond msg mem labs n false llm =
        .reply ⟨503, false, none, some notConfiguredMsg, none, none⟩) ∧
    (∀ llm : Except Chars Chars,
      generateMedicalResponse false llm =
        .error (S "OpenAI API key not configured") ∧
      jsIncludes (S "OpenAI API key not configured") (S "API key") = true) ∧
    (∀ (msg : Chars) (mem : Member) (n : Nat) (cfg : Bool) (llm : Except Chars Chars),
      ∃ text : Chars, chatRespond msg mem [] n cfg llm =
        .reply ⟨200, true, some text, none, some (S "none"), none⟩) ∧
    (∀ (msg msg2 : Chars) (mem mem2 : Member) (labs : List LabResult) (n n2 : Nat)
      (llm llm2 : Except Chars Chars) (cfg2 : Bool), labs ≠ [] →
      chatRespond msg mem labs n false llm ≠ chatRespond msg2 mem2 [] n2 cfg2 llm2) := by
  have h503 : ∀ (msg : Chars) (mem : Member) (labs : List LabResult) (n : Nat)
      (llm : Except Chars Chars), labs ≠ [] →
      chatRespond msg mem labs n false llm =
        .reply ⟨503, false, none, some notConfiguredMsg, none, none⟩ := by
    intro msg mem labs n llm h
    have hlen : ¬ labs.length = 0 := fun hl => h (List.length_eq_zero.mp hl)
    simp only [chatRespond]
    rw [if_neg hlen]
    rfl
  have hEmpty : ∀ (msg : Chars) (mem : Member) (n : Nat) (cfg : Bool)
      (llm : Except Chars Chars), ∃ text : Chars,
      chatRespond msg mem [] n cfg llm =
        .reply ⟨200, true, some text, none, some (S "none"), none⟩ := by
    intro msg mem n cfg llm
    cases n with
    | zero => exact ⟨neverUploaded, by simp [chatRespond]⟩
    | succ k => exact ⟨foundButNone (k + 1), by simp [chatRespond]⟩
  refine ⟨h503, fun llm => ⟨rfl, by decide⟩, hEmpty, ?_⟩
  intro msg msg2 mem mem2 labs n n2 llm llm2 cfg2 h
  obtain ⟨text, ht⟩ := hEmpty msg2 mem2 n2 cfg2 llm2
  rw [h503 msg mem labs n llm h, ht]
  simp

/-- Witness for C9: one in-window observation, unconfigured service. -/
theorem claim_C9_unconfigured_503_witness :
    chatRespond (S "how is my health") ⟨S "Asha", 30, S "Female", []⟩
      [⟨S "tlc", 5000, S "cells/cumm", ⟨2024, 1, 1, 0, 0, 0⟩, false⟩] 3 false (.ok (S "raw")) =
      .reply ⟨503, false, none, some notConfiguredMsg, none, none⟩ :=
  claim_C9_unconfigured_503.1 (S "how is my health") ⟨S "Asha", 30, S "Female", []⟩
    [⟨S "tlc", 5000, S "cells/cumm", ⟨2024, 1, 1, 0, 0, 0⟩, false⟩] 3 (.ok (S "raw"))
    (List.cons_ne_nil _ _)

/-- Replacing the stored flag changes nothing in a formatted line. -/
lemma formatLabLine_setStoredFlag (g : Chars) (b : Bool) (r : LabResult) :
    formatLabLine g (setStoredFlag b r) = formatLabLine g r := rfl

/-- The formatted block ignores the stored abnormal flags entirely. -/
lemma formatLabResults_setStoredFlag (rs : List LabResult) (g : Chars) (b : Bool) :
    formatLabResults (rs.map (setStoredFlag b)) g = formatLabResults rs g := by
  simp only [formatLabResults, List.map_map]
  congr 1

/-- A single observation formats to exactly its line. -/
lemma formatLabResults_singleton (r : LabResult) (g : Chars) :
    formatLabResults [r] g = formatLabLine g r := by
  simp [formatLabResults, List.intercalate]

/-- Claim C8: every rendered observation line carries the reference
range string and an out-of-range/normal suffix recomputed live from the
reference-range module with the member's gender; the stored abnormal
flag is never read (flipping it everywhere leaves the block and the
whole prompt unchanged); the full-result block is truncated to the 50
most recent observations; and with a detected topic and nonempty
relevant subset, the assembled prompt is the base followed by the
labeled relevant block followed by the full block. -/
theorem claim_C8_context_assembly :
    (∀ (rs : List LabResult) (g : Chars) (b : Bool),
      formatLabResults (rs.map (setStoredFlag b)) g = formatLabResults rs g) ∧
    (∀ (r : LabResult) (g : Chars), formatLabResults [r] g =
      dateToChars r.testDate ++ S " - " ++ r.marker ++ S ": " ++ ratToChars r.value ++
      S " " ++ r.unit ++ S " (Normal: " ++ formatReferenceRange r.marker g ++ S ")" ++
      (if isAbnormal r.marker r.value g then S " ⚠️ OUT OF RANGE" else S " ✓ Normal")) ∧
    (∀ (msg : Chars) (mem : Member) (g : Chars) (tp : Option HealthTopic)
      (rel labs : List LabResult),
      buildChatPrompt msg mem g tp rel labs = buildChatPrompt msg mem g tp rel (labs.take 50)) ∧
    (∀ labs : List LabResult, (labs.take 50).length ≤ 50) ∧
    (∀ (msg : Chars) (mem : Member) (g : Chars) (t : HealthTopic)
      (rel labs : List LabResult),
      buildChatPrompt msg mem g (some t) rel labs =
        promptBase msg mem ++
        ((if 0 < rel.length then relevantSection t.topic rel g else []) ++
          allSection (labs.take 50) g)) ∧
    (∀ (msg : Chars) (mem : Member) (g : Chars) (tp : Option HealthTopic)
      (rel labs : List LabResult) (b : Bool),
      buildChatPrompt msg mem g tp (rel.map (setStoredFlag b)) (labs.map (setStoredFlag b)) =
        buildChatPrompt msg mem g tp rel labs) := by
  refine ⟨formatLabResults_setStoredFlag, ?_, ?_, ?_, ?_, ?_⟩
  · intro r g
    exact (formatLabResults_singleton r g).trans rfl
  · intro msg mem g tp rel labs
    simp [buildChatPrompt, List.take_take]
  · intro labs
    exact List.length_take_le _ _
  · intro msg mem g t rel labs
    by_cases h : 0 < rel.length
    · simp [buildChatPrompt, h, List.append_assoc]
    · simp [buildChatPrompt, h, List.append_assoc]
  · intro msg mem g tp rel labs b
    cases tp with
    | none =>
      simp only [buildChatPrompt, ← List.map_take, allSection, List.length_map,
        formatLabResults_setStoredFlag]
    | some t =>
      simp only [buildChatPrompt, ← List.map_take, allSection, relevantSection,
        List.length_map, formatLabResults_setStoredFlag]

end HealthBuddy
